import Mathlib

/-!
Shallow embedding of `src/client/src/bfc/handlers/btc_outbound_handler.rs`
(the `BtcOutboundHandler` of the BTC outbound leg of the bifrost relayer).

External collaborators (chain RPC clients, the subxt event codec, the PSBT
codec, the sentry sink, contract calls) are modelled as oracles packaged in
environment records; the control flow of the handler itself, gating logic, barrier
arithmetic and bootstrap range computation are translated statement by
statement from the Rust source.  Effects performed against the outside
world (log lines, sentry captures, contract submissions, historical event
queries) are recorded in an explicit trace; a Rust `panic!` / `.unwrap()`
failure is an `Except.error`.
-/

namespace BtcOutbound

/-- Modelled from the spec: `BootstrapState` lives in `br_primitives::eth`
(outside `src/`); the spec describes it as an enumeration containing the
phase used by this handler and a normal-start phase, plus other bootstrap
phases treated as opaque pass-through values (represented here by
`otherPhase`). -/
inductive BootstrapState where
  | NodeSyncing : BootstrapState
  | BootstrapBtcOutbound : BootstrapState
  | NormalStart : BootstrapState
  | otherPhase : Nat → BootstrapState
deriving DecidableEq, Repr

/-- Modelled from the spec: the decoded event variant
`UnsignedPsbtSubmitted` (declared in `crate::bfc`, outside `src/`) carries a
raw byte blob `psbt`; bytes are modelled as naturals. -/
structure UnsignedPsbtSubmitted where
  psbt : List Nat
deriving DecidableEq, Repr

/-- Modelled from the spec: a decoded PSBT (the `Psbt` type of `bitcoincore_rpc`) is
an opaque structured transaction; we keep only an identifier of the decoded
structure. -/
structure Psbt where
  decoded : List Nat
deriving DecidableEq, Repr

/-- Modelled from the spec: `RoundMetaData` (from
`br_primitives::contracts::authority`, outside `src/`) is an opaque
read-only snapshot of round timing parameters. -/
structure RoundMetaData where
  data : Nat
deriving DecidableEq, Repr

/-- Opaque raw ledger-event record (`EventDetails<CustomConfig>`); its
interpretation is delegated to the codec oracle of the environment. -/
structure ExtEvent where
  id : Nat
deriving DecidableEq, Repr

/-- An externally visible effect performed by the handler.  Each
constructor mirrors one call site in the Rust source. -/
inductive Effect where
  /-- the `log::info!` "Imported #block with target logs" line of `run` -/
  | logImported : String → Nat → Nat → Effect
  /-- the `log::info!` "psbt event detected" line of `process_confirmed_event` -/
  | logPsbtDetected : String → List Nat → Effect
  /-- the `log::error!` "Error on decoding" line (chain name, raw blob) -/
  | logDecodeError : String → List Nat → Effect
  /-- the `sentry::capture_message` call (chain name, relayer address, raw blob) -/
  | sentryCapture : String → Nat → List Nat → Effect
  /-- the `submit_signed_psbt` call (relayer address, decoded psbt) -/
  | submitSignedPsbt : Nat → Psbt → Effect
  /-- the `authority.round_info` contract call on the own client of the handler -/
  | roundInfoOwn : Effect
  /-- the `authority.round_info` contract call on the managed client with the given chain id -/
  | roundInfoClient : Nat → Effect
  /-- the `filter_block_event(from_block, to_block)` historical query -/
  | filterBlockEvent : Nat → Nat → Effect
deriving DecidableEq, Repr

/-- Environment of `process_confirmed_event`: the external codecs, the
answer of the authorization oracle, the outcome of the submission sink,
and the identity of the handler. -/
structure ProcEnv where
  /-- outcome of `ext_events.as_event::<UnsignedPsbtSubmitted>()`:
  `Except.error` models the `Err` case (whose `.unwrap()` panics),
  `Except.ok none` a non-matching event, `Except.ok (some ev)` a match. -/
  asEvent : ExtEvent → Except String (Option UnsignedPsbtSubmitted)
  /-- outcome of `Psbt::deserialize` on a raw blob -/
  psbtDeserialize : List Nat → Except String Psbt
  /-- result of the `is_previous_selected_relayer` contract-call chain of
  `is_selected_relayer` -/
  isSelectedRelayerResult : Bool
  /-- outcome of the `submit_signed_psbt` call on a decoded psbt -/
  submitResult : Psbt → Except String Unit
  /-- mirrors `self.bfc_client.eth_client.get_chain_name()` -/
  chainName : String
  /-- mirrors `self.bfc_client.eth_client.address()` -/
  relayerAddress : Nat

/-- Rust source, lines 141-162: `is_selected_relayer` performs the two
contract calls and returns the oracle boolean. -/
def is_selected_relayer (env : ProcEnv) : Bool :=
  env.isSelectedRelayerResult

/-- Rust source, lines 164-167: `is_selected_socket` unconditionally
returns `true` (placeholder destination-side gate). -/
def is_selected_socket (_env : ProcEnv) : Bool :=
  true

/-- Rust source, lines 80-139: `process_confirmed_event`.  Returns the
trace of effects, or `Except.error` when an `.unwrap()` panics. -/
def process_confirmed_event (env : ProcEnv) (ext_events : ExtEvent)
    (is_bootstrap : Bool) : Except String (List Effect) :=
  match env.asEvent ext_events with
  | Except.error e => Except.error e
  | Except.ok none => Except.ok []
  | Except.ok (some matching_event) =>
    let matching_event_psbt := matching_event.psbt
    match env.psbtDeserialize matching_event_psbt with
    | Except.ok deserialized_psbt =>
      let detectLog : List Effect :=
        if !is_bootstrap then [Effect.logPsbtDetected env.chainName matching_event_psbt]
        else []
      if (!is_selected_relayer env) && (!is_selected_socket env) then
        Except.ok detectLog
      else
        match env.submitResult deserialized_psbt with
        | Except.ok _ =>
          Except.ok (detectLog ++ [Effect.submitSignedPsbt env.relayerAddress deserialized_psbt])
        | Except.error e => Except.error e
    | Except.error _e =>
      Except.ok [Effect.logDecodeError env.chainName matching_event_psbt,
                 Effect.sentryCapture env.chainName env.relayerAddress matching_event_psbt]

/-- Rust source, lines 61-67 and 177-181: the `while let Some(..) =
stream.next()` loop processing a sequence of events strictly in delivery
order; a panic inside one event stops the loop (and the handler). -/
def process_events (env : ProcEnv) (events : List ExtEvent)
    (is_bootstrap : Bool) : Except String (List Effect) :=
  match events with
  | [] => Except.ok []
  | e :: rest =>
    match process_confirmed_event env e is_bootstrap with
    | Except.error msg => Except.error msg
    | Except.ok t =>
      match process_events env rest is_bootstrap with
      | Except.error msg => Except.error msg
      | Except.ok ts => Except.ok (t ++ ts)

/-- Sequential composition of two traced computations: the second runs only
if the first completed, and its effects follow those of the first. -/
def traceSeq (a b : Except String (List Effect)) : Except String (List Effect) :=
  match a with
  | Except.error m => Except.error m
  | Except.ok t1 =>
    match b with
    | Except.error m => Except.error m
    | Except.ok t2 => Except.ok (t1 ++ t2)

/-- Modelled from the spec: the bootstrap configuration (outside `src/`)
carries an optional round offset. -/
structure BootstrapConfig where
  round_offset : Option Nat
deriving DecidableEq, Repr

/-- Modelled from the spec: `DEFAULT_BOOTSTRAP_ROUND_OFFSET` is the
system-defined default round offset (a constant of `br_primitives`,
outside `src/`); no claim depends on its concrete value. -/
def DEFAULT_BOOTSTRAP_ROUND_OFFSET : Nat := 3

/-- Modelled from the spec: the `INVALID_BIFROST_NATIVENESS` error text (a
constant of `br_primitives::constants::errors`, outside `src/`) describing
the missing-native-chain misconfiguration. -/
def INVALID_BIFROST_NATIVENESS : String :=
  "A native-flagged bifrost client must exist to determine round metadata"

/-- Rust source, line 22: the sub-log target string of this handler. -/
def SUB_LOG_TARGET : String := "regis-handler"

/-- Metadata of a managed `EthClient` as far as this handler reads it. -/
structure ClientMeta where
  is_native : Bool
deriving DecidableEq, Repr

/-- Environment of `get_bootstrap_events`: the shared bootstrap
configuration, the nativeness flag of the handler, the managed clients in
`BTreeMap` iteration order (ascending chain id), and the oracles behind
the contract and chain queries. -/
structure BootEnv where
  /-- mirrors `self.bootstrap_shared_data.bootstrap_config` -/
  bootstrap_config : Option BootstrapConfig
  /-- mirrors `self.bfc_client.eth_client.metadata.is_native` -/
  self_is_native : Bool
  /-- mirrors `self.system_clients`, in iteration order, each with its metadata -/
  system_clients : List (Nat × ClientMeta)
  /-- result of `authority.round_info` on the own client of the handler -/
  own_round_info : RoundMetaData
  /-- result of `authority.round_info` on the managed client with a given id -/
  client_round_info : Nat → RoundMetaData
  /-- result of `get_bootstrap_offset_height_based_on_block_time`
  (an `EthClient` computation external to this handler) -/
  offset_height : Nat → RoundMetaData → Nat
  /-- result of `get_latest_block_number` -/
  latest_block_number : Nat
  /-- result of `filter_block_event(from, to)` -/
  filter_result : Nat → Nat → List ExtEvent
  /-- mirrors `self.bfc_client.eth_client.get_chain_name()` -/
  chainName : String

/-- The Rust `u64::saturating_sub`, used at line 242 of the source; on `Nat`
truncated subtraction is exactly saturation at zero. -/
def saturating_sub (a b : Nat) : Nat := a - b

/-- The `panic!` message of lines 224-229:
`"[chain]-[SUB_LOG_TARGET] INVALID_BIFROST_NATIVENESS"`. -/
def nativenessPanicMsg (chain : String) : String :=
  "[" ++ chain ++ "]-[" ++ SUB_LOG_TARGET ++ "] " ++ INVALID_BIFROST_NATIVENESS

/-- Rust source, lines 202-249: `get_bootstrap_events`.  Returns the
collected events together with the trace of external calls made, or
`Except.error` for the `panic!` of the missing-native-chain case. -/
def get_bootstrap_events (env : BootEnv) :
    Except String (List ExtEvent × List Effect) :=
  match env.bootstrap_config with
  | none => Except.ok ([], [])
  | some bootstrap_config =>
    let round_call : Except String (RoundMetaData × Effect) :=
      if env.self_is_native then
        Except.ok (env.own_round_info, Effect.roundInfoOwn)
      else
        match env.system_clients.find? (fun c => c.2.is_native) with
        | some (id, _meta) =>
          Except.ok (env.client_round_info id, Effect.roundInfoClient id)
        | none => Except.error (nativenessPanicMsg env.chainName)
    match round_call with
    | Except.error m => Except.error m
    | Except.ok (round_info, callEff) =>
      let bootstrap_offset_height :=
        env.offset_height
          (bootstrap_config.round_offset.getD DEFAULT_BOOTSTRAP_ROUND_OFFSET)
          round_info
      let latest_block_number := env.latest_block_number
      let from_block := saturating_sub latest_block_number bootstrap_offset_height
      let to_block := latest_block_number
      Except.ok (env.filter_result from_block to_block,
                 [callEff, Effect.filterBlockEvent from_block to_block])

/-- The shared mutable coordination state (fields of `BootstrapSharedData`:
`socket_bootstrap_count`, a `u8` stored as a natural below `256`, and
`bootstrap_states`, one entry per tracked chain). -/
structure SharedData where
  socket_bootstrap_count : Nat
  bootstrap_states : List BootstrapState
deriving DecidableEq, Repr

/-- Rust source, lines 183-199: the barrier tail of `bootstrap` — increment
the `u8` counter under its lock (wrapping at `2 ^ 8`), and when it equals
`system_clients.len() as u8` set every shared state to `NormalStart`;
`numClients` is `self.system_clients.len()`. -/
def bootstrap_barrier_step (sd : SharedData) (numClients : Nat) : SharedData :=
  let bootstrap_count := (sd.socket_bootstrap_count + 1) % 256
  if bootstrap_count = numClients % 256 then
    { socket_bootstrap_count := bootstrap_count,
      bootstrap_states := sd.bootstrap_states.map (fun _ => BootstrapState.NormalStart) }
  else
    { socket_bootstrap_count := bootstrap_count,
      bootstrap_states := sd.bootstrap_states }

/-- Rust source, lines 169-200: `bootstrap` — fetch the historical events,
process each sequentially in bootstrap mode, then run the barrier step. -/
def bootstrap (benv : BootEnv) (penv : ProcEnv) (sd : SharedData) :
    Except String (SharedData × List Effect) :=
  match get_bootstrap_events benv with
  | Except.error m => Except.error m
  | Except.ok (events, t1) =>
    match process_events penv events true with
    | Except.error m => Except.error m
    | Except.ok t2 =>
      Except.ok (bootstrap_barrier_step sd benv.system_clients.length, t1 ++ t2)

/-- Rust source, lines 251-258: `is_bootstrap_state_synced_as`. -/
def is_bootstrap_state_synced_as (sd : SharedData) (state : BootstrapState) : Bool :=
  sd.bootstrap_states.all (fun s => s == state)

/-- A live `EventMessage` batch: `{ block_number, events }`. -/
structure EventMessage where
  block_number : Nat
  events : List ExtEvent
deriving DecidableEq, Repr

/-- Which branch one iteration of the `run` loop takes (lines 44-50-68):
the bootstrap branch, the streaming branch, or neither. -/
inductive IterAction where
  | bootstrapAction : IterAction
  | streamAction : IterAction
  | idle : IterAction
deriving DecidableEq, Repr

/-- Rust source, lines 44-68: the branch selection of one `run`-loop
iteration, decided solely from the shared states. -/
def run_iter_action (sd : SharedData) : IterAction :=
  if is_bootstrap_state_synced_as sd BootstrapState.BootstrapBtcOutbound then
    IterAction.bootstrapAction
  else if is_bootstrap_state_synced_as sd BootstrapState.NormalStart then
    IterAction.streamAction
  else
    IterAction.idle

/-- Rust source, lines 43-69: one iteration of the `run` loop.  `recv` is
the outcome of `self.event_receiver.recv()` (whose `.unwrap()` panics on a
closed channel).  The `sleep` of the bootstrap branch has no observable
effect here. -/
def run_iteration (benv : BootEnv) (penv : ProcEnv)
    (recv : Except String EventMessage) (sd : SharedData) :
    Except String (SharedData × List Effect) :=
  match run_iter_action sd with
  | IterAction.bootstrapAction => bootstrap benv penv sd
  | IterAction.streamAction =>
    match recv with
    | Except.error m => Except.error m
    | Except.ok msg =>
      match process_events penv msg.events false with
      | Except.error m => Except.error m
      | Except.ok t =>
        Except.ok (sd, Effect.logImported penv.chainName msg.block_number msg.events.length :: t)
  | IterAction.idle => Except.ok (sd, [])

/-! Concrete environments used to evaluate the model on explicit inputs. -/

/-- Concrete subxt codec: event `0` does not match the
`UnsignedPsbtSubmitted` shape, event `1` matches with blob `[1, 2]`,
event `2` matches with blob `[9]`, and any other event fails codec
decoding (the case whose `.unwrap()` would panic). -/
def sampleAsEvent (e : ExtEvent) : Except String (Option UnsignedPsbtSubmitted) :=
  if e.id = 0 then Except.ok none
  else if e.id = 1 then Except.ok (some { psbt := [1, 2] })
  else if e.id = 2 then Except.ok (some { psbt := [9] })
  else Except.error "subxt event decoding failed"

/-- Concrete PSBT codec: the blob `[9]` is malformed, every other blob
deserializes to a `Psbt` wrapping it. -/
def samplePsbtDeserialize (blob : List Nat) : Except String Psbt :=
  if blob = [9] then Except.error "malformed psbt" else Except.ok { decoded := blob }

/-- Concrete processing environment on chain `"bifrost"` with relayer
address `7`, a submission sink that always succeeds, and the given
relayer-gate oracle answer. -/
def sampleProcEnv (relayerSelected : Bool) : ProcEnv :=
  { asEvent := sampleAsEvent
    psbtDeserialize := samplePsbtDeserialize
    isSelectedRelayerResult := relayerSelected
    submitResult := fun _ => Except.ok ()
    chainName := "bifrost"
    relayerAddress := 7 }

/-- Concrete bootstrap environment: a configuration with round offset `5`
is present, the handler itself is the native chain, two managed clients
(neither native), computed offset height `300`, latest block `1000`, and a
historical query that returns no events. -/
def sampleBootEnv : BootEnv :=
  { bootstrap_config := some { round_offset := some 5 }
    self_is_native := true
    system_clients := [(0, { is_native := false }), (1, { is_native := false })]
    own_round_info := { data := 11 }
    client_round_info := fun _ => { data := 22 }
    offset_height := fun _ _ => 300
    latest_block_number := 1000
    filter_result := fun _ _ => []
    chainName := "bifrost" }

/-- The sample bootstrap environment with no bootstrap configuration. -/
def noConfigBootEnv : BootEnv :=
  { sampleBootEnv with bootstrap_config := none }

/-- The sample bootstrap environment with a non-native handler whose
managed clients are a non-native chain `3` followed by a native chain `4`. -/
def nonNativeBootEnv : BootEnv :=
  { sampleBootEnv with
    self_is_native := false
    system_clients := [(3, { is_native := false }), (4, { is_native := true })] }

/-- The sample bootstrap environment with a non-native handler and no
native managed client anywhere. -/
def noNativeAnywhereBootEnv : BootEnv :=
  { sampleBootEnv with
    self_is_native := false
    system_clients := [(3, { is_native := false }), (4, { is_native := false })] }

/-- Invariant of the shared barrier data under sequential loop
iterations, relative to the number `N` of managed clients: the state
collection is nonempty, and either the counter is still below `N` with
every chain in the `BootstrapBtcOutbound` phase, or the counter has
reached exactly `N` and every chain is in `NormalStart`. -/
def BarrierInv (N : Nat) (sd : SharedData) : Prop :=
  sd.bootstrap_states ≠ [] ∧
  ((sd.socket_bootstrap_count < N ∧
      ∀ x ∈ sd.bootstrap_states, x = BootstrapState.BootstrapBtcOutbound) ∨
   (sd.socket_bootstrap_count = N ∧
      ∀ x ∈ sd.bootstrap_states, x = BootstrapState.NormalStart))

/-! Claim theorems. -/

/-- C1: the claim states that whenever `is_selected_relayer` returns
`false`, `submit_signed_psbt` is never invoked, regardless of
`is_selected_socket`.  The code skips submission only when BOTH gates fail
(`(!is_selected_relayer) & (!is_selected_socket)`), and
`is_selected_socket` is constantly `true`, so at this concrete input the
relayer gate returns `false` and the submission call is nevertheless
invoked: the guard of lines 104-107 is dead code and the relayer gate
never blocks a submission. -/
theorem c1_relayer_gate_does_not_block_submission :
    is_selected_relayer (sampleProcEnv false) = false ∧
    is_selected_socket (sampleProcEnv false) = true ∧
    process_confirmed_event (sampleProcEnv false) { id := 1 } false =
      Except.ok [Effect.logPsbtDetected "bifrost" [1, 2],
                 Effect.submitSignedPsbt 7 { decoded := [1, 2] }] :=
  ⟨rfl, rfl, rfl⟩

/-- C8: an event that does not match the submitted-artifact shape
(`as_event` returns `Ok(None)`) is silently ignored: processing returns
normally with no log, no sentry report, no submission and no panic. -/
theorem c8_nonmatching_event_silently_ignored (env : ProcEnv) (e : ExtEvent)
    (is_bootstrap : Bool) (h : env.asEvent e = Except.ok none) :
    process_confirmed_event env e is_bootstrap = Except.ok [] := by
  unfold process_confirmed_event
  rw [h]

/-- C8 witness: the non-matching sample event `0` is silently ignored. -/
theorem c8_witness :
    process_confirmed_event (sampleProcEnv true) { id := 0 } false = Except.ok [] :=
  c8_nonmatching_event_silently_ignored (sampleProcEnv true) { id := 0 } false rfl

/-- C2: in the non-wrapping `u8` regime (post-increment value and
`numClients` both fit in a byte), one execution of the barrier critical
section increments the counter by exactly one; while the new count is
still below `numClients` every shared state entry is left unchanged (so
all entries remain in the bootstrap phase until the counter reaches `N`);
on exactly the increment that makes the count equal `numClients` every
entry of the collection is set to `NormalStart` (the collection keeps its
length); and an increment that takes the count beyond `numClients` leaves
the states unchanged (no error, no second flip). -/
theorem c2_barrier_flip_exactly_at_n (sd : SharedData) (numClients : Nat)
    (hc : sd.socket_bootstrap_count + 1 ≤ 255) (hN : numClients ≤ 255) :
    (bootstrap_barrier_step sd numClients).socket_bootstrap_count =
      sd.socket_bootstrap_count + 1 ∧
    (sd.socket_bootstrap_count + 1 < numClients →
      (bootstrap_barrier_step sd numClients).bootstrap_states = sd.bootstrap_states) ∧
    (sd.socket_bootstrap_count + 1 = numClients →
      (bootstrap_barrier_step sd numClients).bootstrap_states.length =
        sd.bootstrap_states.length ∧
      ∀ s ∈ (bootstrap_barrier_step sd numClients).bootstrap_states,
        s = BootstrapState.NormalStart) ∧
    (numClients < sd.socket_bootstrap_count + 1 →
      (bootstrap_barrier_step sd numClients).bootstrap_states = sd.bootstrap_states) := by
  have hmod : (sd.socket_bootstrap_count + 1) % 256 = sd.socket_bootstrap_count + 1 :=
    Nat.mod_eq_of_lt (Nat.lt_of_le_of_lt hc (by norm_num))
  have hNmod : numClients % 256 = numClients :=
    Nat.mod_eq_of_lt (Nat.lt_of_le_of_lt hN (by norm_num))
  unfold bootstrap_barrier_step
  rw [hmod, hNmod]
  dsimp only
  refine ⟨?_, ?_, ?_, ?_⟩
  · split <;> rfl
  · intro hlt
    rw [if_neg (Nat.ne_of_lt hlt)]
  · intro heq
    rw [if_pos heq]
    refine ⟨List.length_map _ _, ?_⟩
    intro s hs
    rcases List.mem_map.mp hs with ⟨x, _, hx⟩
    exact hx.symm
  · intro hgt
    rw [if_neg (Nat.ne_of_gt hgt)]

/-- C2 witness: with two managed chains, the increment from count `1`
reaches `2` and flips both entries. -/
theorem c2_witness :
    (bootstrap_barrier_step
        { socket_bootstrap_count := 1,
          bootstrap_states := [BootstrapState.BootstrapBtcOutbound,
                               BootstrapState.BootstrapBtcOutbound] } 2).socket_bootstrap_count =
      1 + 1 ∧
    (1 + 1 < 2 →
      (bootstrap_barrier_step
          { socket_bootstrap_count := 1,
            bootstrap_states := [BootstrapState.BootstrapBtcOutbound,
                                 BootstrapState.BootstrapBtcOutbound] } 2).bootstrap_states =
        [BootstrapState.BootstrapBtcOutbound, BootstrapState.BootstrapBtcOutbound]) ∧
    (1 + 1 = 2 →
      (bootstrap_barrier_step
          { socket_bootstrap_count := 1,
            bootstrap_states := [BootstrapState.BootstrapBtcOutbound,
                                 BootstrapState.BootstrapBtcOutbound] } 2).bootstrap_states.length =
        [BootstrapState.BootstrapBtcOutbound, BootstrapState.BootstrapBtcOutbound].length ∧
      ∀ s ∈ (bootstrap_barrier_step
          { socket_bootstrap_count := 1,
            bootstrap_states := [BootstrapState.BootstrapBtcOutbound,
                                 BootstrapState.BootstrapBtcOutbound] } 2).bootstrap_states,
        s = BootstrapState.NormalStart) ∧
    (2 < 1 + 1 →
      (bootstrap_barrier_step
          { socket_bootstrap_count := 1,
            bootstrap_states := [BootstrapState.BootstrapBtcOutbound,
                                 BootstrapState.BootstrapBtcOutbound] } 2).bootstrap_states =
        [BootstrapState.BootstrapBtcOutbound, BootstrapState.BootstrapBtcOutbound]) :=
  c2_barrier_flip_exactly_at_n
    { socket_bootstrap_count := 1,
      bootstrap_states := [BootstrapState.BootstrapBtcOutbound,
                           BootstrapState.BootstrapBtcOutbound] } 2
    (by norm_num) (by norm_num)

/-- C5: with a bootstrap configuration present (stated here on the
native-chain path, where the offset is computed from the own-registry
round metadata), the historical query is issued over
`[saturating_sub L O, L]`; the start equals `L - O` as integers when
`O ≤ L` and is clamped to `0` when `O > L`. -/
theorem c5_bootstrap_range (benv : BootEnv) (cfg : BootstrapConfig)
    (hcfg : benv.bootstrap_config = some cfg) (hnative : benv.self_is_native = true) :
    get_bootstrap_events benv =
      Except.ok
        (benv.filter_result
           (saturating_sub benv.latest_block_number
             (benv.offset_height (cfg.round_offset.getD DEFAULT_BOOTSTRAP_ROUND_OFFSET)
               benv.own_round_info))
           benv.latest_block_number,
         [Effect.roundInfoOwn,
          Effect.filterBlockEvent
            (saturating_sub benv.latest_block_number
              (benv.offset_height (cfg.round_offset.getD DEFAULT_BOOTSTRAP_ROUND_OFFSET)
                benv.own_round_info))
            benv.latest_block_number]) ∧
    (∀ L O : Nat, O ≤ L → (saturating_sub L O : Int) = (L : Int) - (O : Int)) ∧
    (∀ L O : Nat, L < O → saturating_sub L O = 0) := by
  refine ⟨?_, ?_, ?_⟩
  · unfold get_bootstrap_events
    rw [hcfg, hnative]
    simp
  · intro L O hOL
    unfold saturating_sub
    omega
  · intro L O hLO
    unfold saturating_sub
    omega

/-- C5 witness: in the sample environment (latest block `1000`, computed
offset `300`) the historical query is issued for `[700, 1000]`; the clamp
facts are instantiated at `(1000, 300)` and `(1000, 1500)`. -/
theorem c5_witness :
    get_bootstrap_events sampleBootEnv =
      Except.ok ([], [Effect.roundInfoOwn, Effect.filterBlockEvent 700 1000]) ∧
    (300 ≤ 1000 → (saturating_sub 1000 300 : Int) = (1000 : Int) - (300 : Int)) ∧
    (1000 < 1500 → saturating_sub 1000 1500 = 0) := by
  have h := c5_bootstrap_range sampleBootEnv { round_offset := some 5 } rfl rfl
  refine ⟨?_, fun hle => h.2.1 1000 300 hle, fun hlt => h.2.2 1000 1500 hlt⟩
  have h1 := h.1
  simpa [sampleBootEnv, saturating_sub] using h1

/-- C6: an event whose blob fails PSBT deserialization is handled by
logging the failure with the raw blob and emitting a sentry record
carrying the chain name, the relayer address and the offending blob; no
submission effect occurs and processing returns normally, so a later
well-formed artifact in the same batch is still processed and submitted
(the batch trace is exactly the failure diagnostics followed by the
detection log and the submission of the good artifact). -/
theorem c6_decode_failure_isolated (env : ProcEnv) (bad good : ExtEvent)
    (evb evg : UnsignedPsbtSubmitted) (m : String) (p : Psbt)
    (hb : env.asEvent bad = Except.ok (some evb))
    (hbd : env.psbtDeserialize evb.psbt = Except.error m)
    (hg : env.asEvent good = Except.ok (some evg))
    (hgd : env.psbtDeserialize evg.psbt = Except.ok p)
    (hs : env.submitResult p = Except.ok ()) :
    process_confirmed_event env bad false =
      Except.ok [Effect.logDecodeError env.chainName evb.psbt,
                 Effect.sentryCapture env.chainName env.relayerAddress evb.psbt] ∧
    process_events env [bad, good] false =
      Except.ok [Effect.logDecodeError env.chainName evb.psbt,
                 Effect.sentryCapture env.chainName env.relayerAddress evb.psbt,
                 Effect.logPsbtDetected env.chainName evg.psbt,
                 Effect.submitSignedPsbt env.relayerAddress p] := by
  have hbad : process_confirmed_event env bad false =
      Except.ok [Effect.logDecodeError env.chainName evb.psbt,
                 Effect.sentryCapture env.chainName env.relayerAddress evb.psbt] := by
    unfold process_confirmed_event
    rw [hb]
    dsimp only
    rw [hbd]
  have hgood : process_confirmed_event env good false =
      Except.ok [Effect.logPsbtDetected env.chainName evg.psbt,
                 Effect.submitSignedPsbt env.relayerAddress p] := by
    unfold process_confirmed_event
    rw [hg]
    dsimp only
    rw [hgd]
    dsimp only
    simp only [is_selected_socket, Bool.not_true, Bool.and_false, Bool.false_eq_true,
      if_false, hs]
    simp
  refine ⟨hbad, ?_⟩
  unfold process_events
  rw [hbad]
  unfold process_events
  rw [hgood]
  rfl

/-- C6 witness: in the sample environment the malformed event `2` (blob
`[9]`) is reported and the later well-formed event `1` (blob `[1, 2]`) is
still submitted. -/
theorem c6_witness :
    process_confirmed_event (sampleProcEnv true) { id := 2 } false =
      Except.ok [Effect.logDecodeError "bifrost" [9],
                 Effect.sentryCapture "bifrost" 7 [9]] ∧
    process_events (sampleProcEnv true) [{ id := 2 }, { id := 1 }] false =
      Except.ok [Effect.logDecodeError "bifrost" [9],
                 Effect.sentryCapture "bifrost" 7 [9],
                 Effect.logPsbtDetected "bifrost" [1, 2],
                 Effect.submitSignedPsbt 7 { decoded := [1, 2] }] :=
  c6_decode_failure_isolated (sampleProcEnv true) { id := 2 } { id := 1 }
    { psbt := [9] } { psbt := [1, 2] } "malformed psbt" { decoded := [1, 2] }
    rfl rfl rfl rfl rfl

/-- C7: batches are processed strictly sequentially in delivery order —
the trace of a concatenated batch is the trace of the prefix followed by
the trace of the suffix, and the suffix runs only if the prefix completed
without a panic (`traceSeq`); moreover a non-matching event is skipped in
place, leaving the rest of the batch and its order untouched. -/
theorem c7_sequential_in_order_processing :
    (∀ (env : ProcEnv) (is_bootstrap : Bool) (xs ys : List ExtEvent),
      process_events env (xs ++ ys) is_bootstrap =
        traceSeq (process_events env xs is_bootstrap)
                 (process_events env ys is_bootstrap)) ∧
    (∀ (env : ProcEnv) (is_bootstrap : Bool) (e : ExtEvent) (xs ys : List ExtEvent),
      env.asEvent e = Except.ok none →
      process_events env (xs ++ e :: ys) is_bootstrap =
        process_events env (xs ++ ys) is_bootstrap) := by
  have happ : ∀ (env : ProcEnv) (b : Bool) (xs ys : List ExtEvent),
      process_events env (xs ++ ys) b =
        traceSeq (process_events env xs b) (process_events env ys b) := by
    intro env b xs ys
    induction xs with
    | nil =>
      cases hy : process_events env ys b with
      | error m => simp [process_events, traceSeq, hy]
      | ok ts => simp [process_events, traceSeq, hy]
    | cons e rest ih =>
      cases hpe : process_confirmed_event env e b with
      | error m => simp [process_events, traceSeq, hpe]
      | ok t =>
        cases hr : process_events env rest b with
        | error m => simp [process_events, traceSeq, hpe, hr, ih]
        | ok ts =>
          cases hy : process_events env ys b with
          | error m => simp [process_events, traceSeq, hpe, hr, hy, ih]
          | ok ts2 => simp [process_events, traceSeq, hpe, hr, hy, ih]
  refine ⟨happ, ?_⟩
  intro env b e xs ys h
  have hpe : process_confirmed_event env e b = Except.ok [] := by
    unfold process_confirmed_event
    rw [h]
  have h1 : process_events env (e :: ys) b = process_events env ys b := by
    cases hy : process_events env ys b with
    | error m => simp [process_events, hpe, hy]
    | ok ts => simp [process_events, hpe, hy]
  rw [happ env b xs (e :: ys), h1, ← happ env b xs ys]

/-- C7 witness: for the batch `[e1, e2, e3]` with matching `e1 = e3 =`
event `1` and non-matching `e2 =` event `0`, the non-matching event is
skipped in place and the batch trace is the in-order sequential
composition of the per-event traces. -/
theorem c7_witness :
    process_events (sampleProcEnv true) ([{ id := 1 }] ++ { id := 0 } :: [{ id := 1 }]) false =
      process_events (sampleProcEnv true) ([{ id := 1 }] ++ [{ id := 1 }]) false ∧
    process_events (sampleProcEnv true) ([{ id := 1 }] ++ [{ id := 1 }]) false =
      traceSeq (process_events (sampleProcEnv true) [{ id := 1 }] false)
               (process_events (sampleProcEnv true) [{ id := 1 }] false) :=
  ⟨c7_sequential_in_order_processing.2 (sampleProcEnv true) false { id := 0 }
      [{ id := 1 }] [{ id := 1 }] rfl,
   c7_sequential_in_order_processing.1 (sampleProcEnv true) false
      [{ id := 1 }] [{ id := 1 }]⟩

/-- In the ordered client list, `find?` on the nativeness flag returns the
first native entry. -/
theorem find_first_native (pre post : List (Nat × ClientMeta)) (id : Nat)
    (meta : ClientMeta) (hpre : ∀ c ∈ pre, c.2.is_native = false)
    (hmeta : meta.is_native = true) :
    (pre ++ (id, meta) :: post).find? (fun c => c.2.is_native) = some (id, meta) := by
  induction pre with
  | nil =>
    exact List.find?_cons_of_pos post hmeta
  | cons a as ih =>
    have ha : a.2.is_native = false := hpre a (List.mem_cons_self a as)
    have has : ∀ c ∈ as, c.2.is_native = false :=
      fun c hc => hpre c (List.mem_cons_of_mem a hc)
    rw [List.cons_append,
        List.find?_cons_of_neg (as ++ (id, meta) :: post) (by simp [ha])]
    exact ih has

/-- C9: with a bootstrap configuration present, the round metadata is
fetched from the own registry of the handler when its chain is flagged
native; otherwise from the registry of the first managed client flagged
native (first in the ordered client list); and when the handler is not
native and no managed client is native, the bootstrap aborts with the
descriptive panic message naming the chain and the
`INVALID_BIFROST_NATIVENESS` error, instead of defaulting. -/
theorem c9_round_metadata_source (benv : BootEnv) (cfg : BootstrapConfig)
    (hcfg : benv.bootstrap_config = some cfg) :
    (benv.self_is_native = true →
      get_bootstrap_events benv =
        Except.ok
          (benv.filter_result
             (saturating_sub benv.latest_block_number
               (benv.offset_height (cfg.round_offset.getD DEFAULT_BOOTSTRAP_ROUND_OFFSET)
                 benv.own_round_info))
             benv.latest_block_number,
           [Effect.roundInfoOwn,
            Effect.filterBlockEvent
              (saturating_sub benv.latest_block_number
                (benv.offset_height (cfg.round_offset.getD DEFAULT_BOOTSTRAP_ROUND_OFFSET)
                  benv.own_round_info))
              benv.latest_block_number])) ∧
    (benv.self_is_native = false →
      ∀ (pre post : List (Nat × ClientMeta)) (id : Nat) (meta : ClientMeta),
        benv.system_clients = pre ++ (id, meta) :: post →
        (∀ c ∈ pre, c.2.is_native = false) → meta.is_native = true →
        get_bootstrap_events benv =
          Except.ok
            (benv.filter_result
               (saturating_sub benv.latest_block_number
                 (benv.offset_height (cfg.round_offset.getD DEFAULT_BOOTSTRAP_ROUND_OFFSET)
                   (benv.client_round_info id)))
               benv.latest_block_number,
             [Effect.roundInfoClient id,
              Effect.filterBlockEvent
                (saturating_sub benv.latest_block_number
                  (benv.offset_height (cfg.round_offset.getD DEFAULT_BOOTSTRAP_ROUND_OFFSET)
                    (benv.client_round_info id)))
                benv.latest_block_number])) ∧
    (benv.self_is_native = false →
      (∀ c ∈ benv.system_clients, c.2.is_native = false) →
      get_bootstrap_events benv = Except.error (nativenessPanicMsg benv.chainName)) := by
  refine ⟨?_, ?_, ?_⟩
  · intro hnative
    unfold get_bootstrap_events
    rw [hcfg, hnative]
    simp
  · intro hnn pre post id meta hdecomp hpre hmeta
    unfold get_bootstrap_events
    rw [hcfg, hnn, hdecomp, find_first_native pre post id meta hpre hmeta]
    simp
  · intro hnn hall
    unfold get_bootstrap_events
    rw [hcfg, hnn, List.find?_eq_none.mpr (fun c hc => by simp [hall c hc])]
    rfl

/-- C9 witness: the non-native sample environment queries the registry of
managed client `4`, the first native one after the non-native client `3`. -/
theorem c9_witness :
    get_bootstrap_events nonNativeBootEnv =
      Except.ok ([], [Effect.roundInfoClient 4, Effect.filterBlockEvent 700 1000]) := by
  have h := (c9_round_metadata_source nonNativeBootEnv { round_offset := some 5 } rfl).2.1
    rfl [(3, { is_native := false })] [] 4 { is_native := true } rfl
    (by decide) rfl
  simpa [nonNativeBootEnv, sampleBootEnv, saturating_sub] using h

/-- C10: `is_bootstrap_state_synced_as` returns `true` exactly when every
entry of the shared collection equals the queried state, and on mixed
per-chain states (not all `BootstrapBtcOutbound` and not all
`NormalStart`) a control-loop iteration takes the idle branch: no
bootstrap replay, no receive from the live event stream, no effects, and
the shared data is left unchanged. -/
theorem c10_unanimous_phase_agreement (sd : SharedData) (s : BootstrapState) :
    (is_bootstrap_state_synced_as sd s = true ↔ ∀ x ∈ sd.bootstrap_states, x = s) ∧
    ((¬ ∀ x ∈ sd.bootstrap_states, x = BootstrapState.BootstrapBtcOutbound) →
     (¬ ∀ x ∈ sd.bootstrap_states, x = BootstrapState.NormalStart) →
     run_iter_action sd = IterAction.idle ∧
     ∀ (benv : BootEnv) (penv : ProcEnv) (recv : Except String EventMessage),
       run_iteration benv penv recv sd = Except.ok (sd, [])) := by
  have hiff : ∀ st : BootstrapState,
      (is_bootstrap_state_synced_as sd st = true ↔ ∀ x ∈ sd.bootstrap_states, x = st) := by
    intro st
    unfold is_bootstrap_state_synced_as
    rw [List.all_eq_true]
    constructor
    · intro h x hx
      exact beq_iff_eq.mp (h x hx)
    · intro h x hx
      exact beq_iff_eq.mpr (h x hx)
  refine ⟨hiff s, ?_⟩
  intro h1 h2
  have hb : is_bootstrap_state_synced_as sd BootstrapState.BootstrapBtcOutbound = false := by
    cases hval : is_bootstrap_state_synced_as sd BootstrapState.BootstrapBtcOutbound with
    | false => rfl
    | true => exact absurd ((hiff BootstrapState.BootstrapBtcOutbound).mp hval) h1
  have hn : is_bootstrap_state_synced_as sd BootstrapState.NormalStart = false := by
    cases hval : is_bootstrap_state_synced_as sd BootstrapState.NormalStart with
    | false => rfl
    | true => exact absurd ((hiff BootstrapState.NormalStart).mp hval) h2
  have haction : run_iter_action sd = IterAction.idle := by
    unfold run_iter_action
    rw [hb, hn]
    rfl
  refine ⟨haction, ?_⟩
  intro benv penv recv
  unfold run_iteration
  rw [haction]

/-- C10 witness: with mixed states `[BootstrapBtcOutbound, NormalStart]`
the unanimity predicate is characterized and the loop iteration is idle. -/
theorem c10_witness :
    (is_bootstrap_state_synced_as
        { socket_bootstrap_count := 0,
          bootstrap_states := [BootstrapState.BootstrapBtcOutbound,
                               BootstrapState.NormalStart] }
        BootstrapState.BootstrapBtcOutbound = true ↔
      ∀ x ∈ [BootstrapState.BootstrapBtcOutbound, BootstrapState.NormalStart],
        x = BootstrapState.BootstrapBtcOutbound) ∧
    (run_iter_action
        { socket_bootstrap_count := 0,
          bootstrap_states := [BootstrapState.BootstrapBtcOutbound,
                               BootstrapState.NormalStart] } = IterAction.idle ∧
     ∀ (benv : BootEnv) (penv : ProcEnv) (recv : Except String EventMessage),
       run_iteration benv penv recv
           { socket_bootstrap_count := 0,
             bootstrap_states := [BootstrapState.BootstrapBtcOutbound,
                                  BootstrapState.NormalStart] } =
         Except.ok
           ({ socket_bootstrap_count := 0,
              bootstrap_states := [BootstrapState.BootstrapBtcOutbound,
                                   BootstrapState.NormalStart] }, [])) :=
  ⟨(c10_unanimous_phase_agreement
      { socket_bootstrap_count := 0,
        bootstrap_states := [BootstrapState.BootstrapBtcOutbound,
                             BootstrapState.NormalStart] }
      BootstrapState.BootstrapBtcOutbound).1,
   (c10_unanimous_phase_agreement
      { socket_bootstrap_count := 0,
        bootstrap_states := [BootstrapState.BootstrapBtcOutbound,
                             BootstrapState.NormalStart] }
      BootstrapState.BootstrapBtcOutbound).2 (by decide) (by decide)⟩

/-- C3 counterexample: the claim states the bootstrap replay runs at most
once per handler instance.  In the sample two-chain system, a handler
whose shared states are still all `BootstrapBtcOutbound` after its first
replay (counter `0 → 1`, no flip at `1 ≠ 2`) takes the bootstrap branch
again on its very next loop iteration and runs a second full replay
(second `round_info` call, second historical query, counter `1 → 2`),
itself triggering the flip without any second handler participating. -/
theorem c3_counterexample :
    run_iter_action
        { socket_bootstrap_count := 0,
          bootstrap_states := [BootstrapState.BootstrapBtcOutbound,
                               BootstrapState.BootstrapBtcOutbound] } =
      IterAction.bootstrapAction ∧
    run_iteration sampleBootEnv (sampleProcEnv true)
        (Except.ok { block_number := 0, events := [] })
        { socket_bootstrap_count := 0,
          bootstrap_states := [BootstrapState.BootstrapBtcOutbound,
                               BootstrapState.BootstrapBtcOutbound] } =
      Except.ok
        ({ socket_bootstrap_count := 1,
           bootstrap_states := [BootstrapState.BootstrapBtcOutbound,
                                BootstrapState.BootstrapBtcOutbound] },
         [Effect.roundInfoOwn, Effect.filterBlockEvent 700 1000]) ∧
    run_iter_action
        { socket_bootstrap_count := 1,
          bootstrap_states := [BootstrapState.BootstrapBtcOutbound,
                               BootstrapState.BootstrapBtcOutbound] } =
      IterAction.bootstrapAction ∧
    run_iteration sampleBootEnv (sampleProcEnv true)
        (Except.ok { block_number := 0, events := [] })
        { socket_bootstrap_count := 1,
          bootstrap_states := [BootstrapState.BootstrapBtcOutbound,
                               BootstrapState.BootstrapBtcOutbound] } =
      Except.ok
        ({ socket_bootstrap_count := 2,
           bootstrap_states := [BootstrapState.NormalStart, BootstrapState.NormalStart] },
         [Effect.roundInfoOwn, Effect.filterBlockEvent 700 1000]) :=
  ⟨rfl, rfl, rfl, rfl⟩

/-- C3 amended: the bootstrap replay runs once per control-loop iteration
while the shared states remain all `BootstrapBtcOutbound` (so possibly
many times per handler instance); under sequential loop iterations
starting inside the barrier invariant (which holds at the initial state:
counter `0`, a nonempty collection all in `BootstrapBtcOutbound`), the
completion counter is monotonically increasing and bounded above by the
number of managed chains. -/
theorem c3_counter_monotone_and_bounded
    (benv : BootEnv) (penv : ProcEnv) (recv : Except String EventMessage)
    (sd sd' : SharedData) (t : List Effect)
    (hN1 : 1 ≤ benv.system_clients.length)
    (hN2 : benv.system_clients.length ≤ 255)
    (hInv : BarrierInv benv.system_clients.length sd)
    (hrun : run_iteration benv penv recv sd = Except.ok (sd', t)) :
    BarrierInv benv.system_clients.length sd' ∧
    sd.socket_bootstrap_count ≤ sd'.socket_bootstrap_count ∧
    sd'.socket_bootstrap_count ≤ benv.system_clients.length := by
  obtain ⟨hne, hdisj⟩ := hInv
  cases hdisj with
  | inl h =>
    obtain ⟨hlt, hall⟩ := h
    have hsync : is_bootstrap_state_synced_as sd BootstrapState.BootstrapBtcOutbound = true := by
      unfold is_bootstrap_state_synced_as
      rw [List.all_eq_true]
      exact fun x hx => beq_iff_eq.mpr (hall x hx)
    have haction : run_iter_action sd = IterAction.bootstrapAction := by
      unfold run_iter_action
      rw [hsync]
      rfl
    unfold run_iteration at hrun
    rw [haction] at hrun
    dsimp only at hrun
    unfold bootstrap at hrun
    cases hge : get_bootstrap_events benv with
    | error m =>
      rw [hge] at hrun
      exact absurd hrun (by simp)
    | ok pr =>
      obtain ⟨events, t1⟩ := pr
      rw [hge] at hrun
      dsimp only at hrun
      cases hpe : process_events penv events true with
      | error m =>
        rw [hpe] at hrun
        exact absurd hrun (by simp)
      | ok t2 =>
        rw [hpe] at hrun
        simp only [Except.ok.injEq, Prod.mk.injEq] at hrun
        obtain ⟨hsd, _⟩ := hrun
        have hmod : (sd.socket_bootstrap_count + 1) % 256 = sd.socket_bootstrap_count + 1 :=
          Nat.mod_eq_of_lt (by omega)
        have hNmod : benv.system_clients.length % 256 = benv.system_clients.length :=
          Nat.mod_eq_of_lt (by omega)
        by_cases hflip : sd.socket_bootstrap_count + 1 = benv.system_clients.length
        · have hval : bootstrap_barrier_step sd benv.system_clients.length =
              { socket_bootstrap_count := sd.socket_bootstrap_count + 1,
                bootstrap_states :=
                  sd.bootstrap_states.map (fun _ => BootstrapState.NormalStart) } := by
            unfold bootstrap_barrier_step
            rw [hmod, hNmod, if_pos hflip]
          rw [hval] at hsd
          refine ⟨?_, ?_, ?_⟩
          · rw [← hsd]
            refine ⟨by simpa using hne, Or.inr ⟨hflip, ?_⟩⟩
            intro x hx
            rcases List.mem_map.mp hx with ⟨y, _, hy⟩
            exact hy.symm
          · rw [← hsd]
            exact Nat.le_succ _
          · rw [← hsd]
            exact Nat.le_of_eq hflip
        · have hlt2 : sd.socket_bootstrap_count + 1 < benv.system_clients.length := by
            omega
          have hval : bootstrap_barrier_step sd benv.system_clients.length =
              { socket_bootstrap_count := sd.socket_bootstrap_count + 1,
                bootstrap_states := sd.bootstrap_states } := by
            unfold bootstrap_barrier_step
            rw [hmod, hNmod, if_neg hflip]
          rw [hval] at hsd
          refine ⟨?_, ?_, ?_⟩
          · rw [← hsd]
            exact ⟨hne, Or.inl ⟨hlt2, hall⟩⟩
          · rw [← hsd]
            exact Nat.le_succ _
          · rw [← hsd]
            exact Nat.le_of_lt hlt2
  | inr h =>
    obtain ⟨heq, hall⟩ := h
    obtain ⟨x, hx⟩ := List.exists_mem_of_ne_nil sd.bootstrap_states hne
    have hsyncB : is_bootstrap_state_synced_as sd BootstrapState.BootstrapBtcOutbound = false := by
      rw [Bool.eq_false_iff]
      intro hcontra
      unfold is_bootstrap_state_synced_as at hcontra
      rw [List.all_eq_true] at hcontra
      have hcx := beq_iff_eq.mp (hcontra x hx)
      rw [hall x hx] at hcx
      cases hcx
    have hsyncN : is_bootstrap_state_synced_as sd BootstrapState.NormalStart = true := by
      unfold is_bootstrap_state_synced_as
      rw [List.all_eq_true]
      exact fun y hy => beq_iff_eq.mpr (hall y hy)
    have haction : run_iter_action sd = IterAction.streamAction := by
      unfold run_iter_action
      rw [hsyncB, hsyncN]
      rfl
    unfold run_iteration at hrun
    rw [haction] at hrun
    dsimp only at hrun
    cases recv with
    | error m => exact absurd hrun (by simp)
    | ok msg =>
      dsimp only at hrun
      cases hpe : process_events penv msg.events false with
      | error m =>
        rw [hpe] at hrun
        exact absurd hrun (by simp)
      | ok t0 =>
        rw [hpe] at hrun
        simp only [Except.ok.injEq, Prod.mk.injEq] at hrun
        obtain ⟨hsd, _⟩ := hrun
        rw [← hsd]
        exact ⟨⟨hne, Or.inr ⟨heq, hall⟩⟩, Nat.le_refl _, Nat.le_of_eq heq⟩

/-- C3 witness: one bootstrap iteration of the sample two-chain system
from the initial barrier state preserves the invariant and moves the
counter from `0` to `1 ≤ 2`. -/
theorem c3_witness :
    BarrierInv sampleBootEnv.system_clients.length
      { socket_bootstrap_count := 1,
        bootstrap_states := [BootstrapState.BootstrapBtcOutbound,
                             BootstrapState.BootstrapBtcOutbound] } ∧
    (0 : Nat) ≤ 1 ∧
    1 ≤ sampleBootEnv.system_clients.length :=
  c3_counter_monotone_and_bounded sampleBootEnv (sampleProcEnv true)
    (Except.ok { block_number := 0, events := [] })
    { socket_bootstrap_count := 0,
      bootstrap_states := [BootstrapState.BootstrapBtcOutbound,
                           BootstrapState.BootstrapBtcOutbound] }
    { socket_bootstrap_count := 1,
      bootstrap_states := [BootstrapState.BootstrapBtcOutbound,
                           BootstrapState.BootstrapBtcOutbound] }
    [Effect.roundInfoOwn, Effect.filterBlockEvent 700 1000]
    (by decide) (by decide) (by unfold BarrierInv; decide) rfl

/-- C4 counterexample: the claim states a handler with no bootstrap
configuration emits exactly one completion-counter increment over its
lifetime.  In the sample two-chain system a no-config handler whose first
increment (`0 → 1`) does not flip the shared states takes the bootstrap
branch again on its next loop iteration and emits a second increment
(`1 → 2`) — while, consistently with the claim, never issuing a
historical query (both iteration traces are empty). -/
theorem c4_counterexample :
    noConfigBootEnv.bootstrap_config = none ∧
    run_iteration noConfigBootEnv (sampleProcEnv true)
        (Except.ok { block_number := 0, events := [] })
        { socket_bootstrap_count := 0,
          bootstrap_states := [BootstrapState.BootstrapBtcOutbound,
                               BootstrapState.BootstrapBtcOutbound] } =
      Except.ok
        ({ socket_bootstrap_count := 1,
           bootstrap_states := [BootstrapState.BootstrapBtcOutbound,
                                BootstrapState.BootstrapBtcOutbound] }, []) ∧
    run_iteration noConfigBootEnv (sampleProcEnv true)
        (Except.ok { block_number := 0, events := [] })
        { socket_bootstrap_count := 1,
          bootstrap_states := [BootstrapState.BootstrapBtcOutbound,
                               BootstrapState.BootstrapBtcOutbound] } =
      Except.ok
        ({ socket_bootstrap_count := 2,
           bootstrap_states := [BootstrapState.NormalStart, BootstrapState.NormalStart] },
         []) :=
  ⟨rfl, rfl, rfl⟩

/-- C4 amended: a handler with no bootstrap configuration performs no
historical query and emits exactly one completion-counter increment per
bootstrap invocation: `get_bootstrap_events` returns no events and makes
no external call, the whole bootstrap produces an empty effect trace
(in particular no `filterBlockEvent`), and the counter advances by
exactly one. -/
theorem c4_no_config_single_increment_no_query
    (benv : BootEnv) (penv : ProcEnv) (sd : SharedData)
    (hcfg : benv.bootstrap_config = none)
    (hc : sd.socket_bootstrap_count + 1 ≤ 255) :
    get_bootstrap_events benv = Except.ok ([], []) ∧
    bootstrap benv penv sd =
      Except.ok (bootstrap_barrier_step sd benv.system_clients.length, []) ∧
    (bootstrap_barrier_step sd benv.system_clients.length).socket_bootstrap_count =
      sd.socket_bootstrap_count + 1 := by
  have hge : get_bootstrap_events benv = Except.ok ([], []) := by
    unfold get_bootstrap_events
    rw [hcfg]
  refine ⟨hge, ?_, ?_⟩
  · unfold bootstrap
    rw [hge]
    rfl
  · have hmod : (sd.socket_bootstrap_count + 1) % 256 = sd.socket_bootstrap_count + 1 :=
      Nat.mod_eq_of_lt (by omega)
    unfold bootstrap_barrier_step
    dsimp only
    split <;> simp [hmod]

/-- C4 witness: the no-config sample environment at counter `0`. -/
theorem c4_witness :
    get_bootstrap_events noConfigBootEnv = Except.ok ([], []) ∧
    bootstrap noConfigBootEnv (sampleProcEnv true)
        { socket_bootstrap_count := 0,
          bootstrap_states := [BootstrapState.BootstrapBtcOutbound,
                               BootstrapState.BootstrapBtcOutbound] } =
      Except.ok
        (bootstrap_barrier_step
           { socket_bootstrap_count := 0,
             bootstrap_states := [BootstrapState.BootstrapBtcOutbound,
                                  BootstrapState.BootstrapBtcOutbound] }
           noConfigBootEnv.system_clients.length, []) ∧
    (bootstrap_barrier_step
        { socket_bootstrap_count := 0,
          bootstrap_states := [BootstrapState.BootstrapBtcOutbound,
                               BootstrapState.BootstrapBtcOutbound] }
        noConfigBootEnv.system_clients.length).socket_bootstrap_count = 0 + 1 :=
  c4_no_config_single_increment_no_query noConfigBootEnv (sampleProcEnv true)
    { socket_bootstrap_count := 0,
      bootstrap_states := [BootstrapState.BootstrapBtcOutbound,
                           BootstrapState.BootstrapBtcOutbound] }
    rfl (by norm_num)

end BtcOutbound
